import Mathlib

/-!
Shallow embedding of the credential/session subsystem and the rate limiter
of the FastAPI backend (src/app/core/security.py, src/app/services/auth_service.py,
src/app/middlewares/rate_limiter.py, src/app/api/auth/auth_router.py,
src/app/dependencies/auth.py, src/app/exceptions, src/exceptions).

Time is modelled as natural-number seconds.  Redis is modelled as an
association list from keys to (count, optional expiry deadline); each
individual Redis command (GET, SET, INCR, TTL) is a separate operation on
that list, mirroring the fact that the middleware issues them as separate
awaited calls.
-/

deriving instance DecidableEq for Except

namespace FastApiBackend

/-- Association-list lookup keyed by strings (Python dict.get / first match). -/
def alistFind {α : Type} : List (String × α) → String → Option α
  | [], _ => none
  | (k, v) :: rest, key => if k = key then some v else alistFind rest key

/-- Remove every binding of a key from an association list. -/
def alistRemove {α : Type} : List (String × α) → String → List (String × α)
  | [], _ => []
  | (k, v) :: rest, key =>
      if k = key then alistRemove rest key else (k, v) :: alistRemove rest key

/-! ## Redis model (counter store of the rate limiter) -/

/-- Redis state: key ↦ (integer value, optional absolute expiry deadline).
A key with deadline `some d` is alive while `now < d`; `none` means no expiry. -/
abbrev Store := List (String × Nat × Option Nat)

/-- Look up a key, respecting expiry: an entry whose deadline has passed is
treated as absent (Redis lazy expiration). -/
def storeGetEntry (st : Store) (now : Nat) (k : String) : Option (Nat × Option Nat) :=
  match alistFind st k with
  | none => none
  | some (c, none) => some (c, none)
  | some (c, some d) => if now < d then some (c, some d) else none

/-- Redis GET of a counter key: the stored integer if the key is alive. -/
def storeGet (st : Store) (now : Nat) (k : String) : Option Nat :=
  (storeGetEntry st now k).map Prod.fst

/-- Redis SET key value EX seconds: (re)creates the key with an expiry
deadline of `now + ex`. -/
def storeSet (st : Store) (now : Nat) (k : String) (v ex : Nat) : Store :=
  (k, v, some (now + ex)) :: alistRemove st k

/-- Redis INCR: increments an alive key, keeping its deadline; on an absent
or expired key it creates the value 1 with no expiry. -/
def storeIncr (st : Store) (now : Nat) (k : String) : Store :=
  match storeGetEntry st now k with
  | some (c, d) => (k, c + 1, d) :: alistRemove st k
  | none => (k, 1, none) :: alistRemove st k

/-- Redis TTL: -2 for an absent/expired key, -1 for a key with no expiry,
otherwise the remaining seconds until the deadline. -/
def storeTtl (st : Store) (now : Nat) (k : String) : Int :=
  match storeGetEntry st now k with
  | none => -2
  | some (_, none) => -1
  | some (_, some d) => (d : Int) - (now : Int)

/-! ## RateLimiterMiddleware (src/app/middlewares/rate_limiter.py) -/

/-- `RateLimiterMiddleware._get_client_ip`: X-Forwarded-For first entry,
else X-Real-IP, else the connection peer host, else "unknown".  A header
bound to the empty string is falsy in Python and treated as absent. -/
def headerOr (headers : List (String × String)) (name : String) : Option String :=
  match alistFind headers name with
  | some v => if v = "" then none else some v
  | none => none

/-- Client-IP extraction of `RateLimiterMiddleware._get_client_ip`. -/
def get_client_ip (headers : List (String × String)) (clientHost : Option String) :
    String :=
  match headerOr headers "X-Forwarded-For" with
  | some f => ((f.splitOn ",").headD "").trim
  | none =>
    match headerOr headers "X-Real-IP" with
    | some r => r
    | none =>
      match clientHost with
      | none => "unknown"
      | some h => h

/-- `RateLimiterMiddleware._create_rate_limit_key`. -/
def create_rate_limit_key (ip path : String) : String :=
  "rate_limit:" ++ ip ++ ":" ++ path

/-- `RateLimiterMiddleware._check_rate_limit`, run as one uninterrupted
sequence: GET; if absent SET 1 EX window (accept, `none`); else if the value
is below the limit INCR (accept, `none`); else return the TTL (reject). -/
def check_rate_limit (st : Store) (now limit window : Nat) (key : String) :
    Store × Option Int :=
  match storeGet st now key with
  | none => (storeSet st now key 1 window, none)
  | some current =>
    if current < limit then (storeIncr st now key, none)
    else (st, some (storeTtl st now key))

/-- Decision made by `RateLimiterMiddleware.dispatch`: forward the request to
the next handler, or answer 429 with a retry_after value. -/
inductive Decision
  | forward
  | reject (retryAfter : Int)
deriving DecidableEq

/-- `_check_rate_limit` against a store that may be unreachable: every Redis
command raises when the store is down, which surfaces as an error. -/
def check_rate_limit_exc (avail : Bool) (st : Store) (now limit window : Nat)
    (key : String) : Except Unit (Store × Option Int) :=
  if avail then .ok (check_rate_limit st now limit window key) else .error ()

/-- `RateLimiterMiddleware.dispatch`: skip limiting for unknown clients;
on a rate-limit hit answer 429 with the TTL as retry_after; on any error
from the counter store continue processing the request (fail open). -/
def dispatch (avail : Bool) (st : Store) (now limit window : Nat)
    (headers : List (String × String)) (clientHost : Option String)
    (path : String) : Decision × Store :=
  let ip := get_client_ip headers clientHost
  if ip = "unknown" then (.forward, st)
  else
    let key := create_rate_limit_key ip path
    match check_rate_limit_exc avail st now limit window key with
    | .error _ => (.forward, st)
    | .ok (st', some ttl) => (.reject ttl, st')
    | .ok (st', none) => (.forward, st')

/-! ## Token codec (src/app/core/security.py) -/

/-- A JSON-ish claim value appearing in a JWT payload. -/
inductive ClaimValue
  | str (s : String)
  | num (n : Nat)
deriving DecidableEq

/-- A JWT payload is an ordered association of claim names to values. -/
abbrev Payload := List (String × ClaimValue)

/-- A signed token as produced by `jwt.encode(payload, secret, algorithm)`:
the payload together with the secret and algorithm that signed it.  The
HMAC signature is idealized: it verifies exactly when the verifier's
secret and algorithm match the signer's. -/
structure Token where
  payload : Payload
  secret : String
  alg : String
deriving DecidableEq

/-- Security configuration loaded at startup
(`_load_security_config` in src/app/core/configs.py / security.py).
`refreshTokenExpireMinutes` is the configured day count times 24*60. -/
structure SecurityConfig where
  jwtSecret : String
  algorithm : String
  accessTokenExpireMinutes : Nat
  refreshTokenExpireMinutes : Nat
  debug : Bool
deriving DecidableEq

/-- Constant `REFRESH_TOKEN_COOKIE_NAME` from security.py. -/
def REFRESH_TOKEN_COOKIE_NAME : String := "refresh_token"

/-- `create_token(data, timedelta)`: copies the payload, adds
`exp = now + delta` (seconds), and signs with the configured secret and
algorithm. -/
def create_token (cfg : SecurityConfig) (data : Payload) (deltaSecs now : Nat) :
    Token :=
  ⟨data ++ [("exp", .num (now + deltaSecs))], cfg.jwtSecret, cfg.algorithm⟩

/-- `create_access_token(user_id)`: payload `{"id": user_id}` with the
access TTL (minutes converted to seconds by timedelta). -/
def create_access_token (cfg : SecurityConfig) (user_id : String) (now : Nat) :
    Token :=
  create_token cfg [("id", .str user_id)] (cfg.accessTokenExpireMinutes * 60) now

/-- `create_refresh_token(user_id)`: payload `{"id": user_id}` with the
refresh TTL. -/
def create_refresh_token (cfg : SecurityConfig) (user_id : String) (now : Nat) :
    Token :=
  create_token cfg [("id", .str user_id)] (cfg.refreshTokenExpireMinutes * 60) now

/-- `decode_token(token)`: `jwt.decode` with the configured secret and the
configured algorithm as the only accepted one.  Signature mismatch, a
non-numeric `exp` claim, or an expired `exp` (`exp < now`, leeway 0) raise
`JWTError`, which `decode_token` converts to `None`. -/
def decode_token (cfg : SecurityConfig) (t : Token) (now : Nat) :
    Option Payload :=
  if t.secret = cfg.jwtSecret ∧ t.alg = cfg.algorithm then
    match alistFind t.payload "exp" with
    | some (.num e) => if e < now then none else some t.payload
    | some (.str _) => none
    | none => some t.payload
  else none

/-- Extraction of `payload.get("id")` followed by the falsy check
`if not user_id`: a missing, non-string or empty subject is rejected. -/
def payload_user_id (p : Payload) : Option String :=
  match alistFind p "id" with
  | some (.str s) => if s = "" then none else some s
  | _ => none

/-! ## Password hashing (src/app/core/security.py) -/

/-- Modelled from the spec: the bcrypt library itself is not part of this
repository.  Per §4.1 it is an adaptive hash embedding a random salt; we
idealize `hashpw` as recording the salt and the password so that `checkpw`
can recompute and compare, with no collisions between distinct passwords. -/
structure BcryptHash where
  salt : Nat
  pw : String
deriving DecidableEq

/-- Modelled from the spec: the string argument position of `checkpw` —
either a well-formed bcrypt hash produced by `hashpw`, or arbitrary
malformed text on which `checkpw` raises. -/
inductive HashInput
  | wf : BcryptHash → HashInput
  | malformed : String → HashInput
deriving DecidableEq

/-- Python truthiness of the hash string (`if not hashed_password`):
only the empty malformed string is falsy. -/
def HashInput.isEmptyStr : HashInput → Bool
  | .malformed "" => true
  | _ => false

/-- Modelled from the spec: `bcrypt.checkpw` recomputes the hash with the
embedded parameters and compares in constant time; it raises on a
malformed hash value. -/
def bcrypt_checkpw (p : String) : HashInput → Except String Bool
  | .wf b => .ok (decide (p = b.pw))
  | .malformed _ => .error "Invalid salt"

/-- `hash_password(password)`: raises ValueError on an empty password,
otherwise bcrypt-hashes with a fresh salt (the salt is an explicit
parameter standing for `bcrypt.gensalt()`). -/
def hash_password (password : String) (salt : Nat) : Except String HashInput :=
  if password = "" then .error "Password cannot be empty"
  else .ok (.wf ⟨salt, password⟩)

/-- `verify_password(plain, hashed)`: returns false if either argument is
falsy, otherwise checks with bcrypt, converting any exception to false. -/
def verify_password (plain_password : String) (hashed_password : HashInput) :
    Bool :=
  if plain_password = "" ∨ hashed_password.isEmptyStr then false
  else
    match bcrypt_checkpw plain_password hashed_password with
    | .ok b => b
    | .error _ => false

/-! ## Exceptions (src/exceptions, src/app/exceptions) -/

/-- Domain errors raised by the auth service, with the status codes fixed
in their constructors (`UnauthorizedError` 401, `NotFoundException` 404,
`ConflictError` 409); `valueError` stands for an uncaught ValueError. -/
inductive AppError
  | unauthorized (detail : String)
  | notFound (detail : String)
  | conflict (detail : String)
  | valueError (detail : String)
deriving DecidableEq

/-- Status code carried by each exception class. -/
def AppError.statusCode : AppError → Nat
  | .unauthorized _ => 401
  | .notFound _ => 404
  | .conflict _ => 409
  | .valueError _ => 500

/-- Boolean test for the error side of an `Except`. -/
def isErr {ε α : Type} : Except ε α → Bool
  | .error _ => true
  | .ok _ => false

/-! ## Users and response cookies -/

/-- A row of the user store as the auth service sees it
(id, email, bcrypt password hash). -/
structure User where
  id : String
  email : String
  password : HashInput
deriving DecidableEq

/-- `UserRepository.find_by_id`. -/
def find_by_id : List User → String → Option User
  | [], _ => none
  | u :: rest, uid => if u.id = uid then some u else find_by_id rest uid

/-- `UserRepository.find_by_email`. -/
def find_by_email : List User → String → Option User
  | [], _ => none
  | u :: rest, em => if u.email = em then some u else find_by_email rest em

/-- One cookie mutation on the FastAPI response object. -/
inductive CookieOp
  | set (key : String) (value : Token) (httponly secure : Bool)
      (samesite : String) (maxAge : Nat) (path : String)
  | del (key : String)
deriving DecidableEq

/-- The response cookie state: the ordered list of cookie operations the
service has applied. -/
abbrev Response := List CookieOp

/-! ## AuthService (src/app/services/auth_service.py) -/

/-- `AuthService._set_refresh_token_cookie`: http-only lax cookie named
`refresh_token` on path "/", `secure = not DEBUG`, living for the refresh
TTL in seconds. -/
def set_refresh_token_cookie (cfg : SecurityConfig) (resp : Response)
    (refresh_token : Token) : Response :=
  resp ++ [.set REFRESH_TOKEN_COOKIE_NAME refresh_token true (!cfg.debug)
    "lax" (cfg.refreshTokenExpireMinutes * 60) "/"]

/-- `AuthService._remove_refresh_token_cookie` (`response.delete_cookie`). -/
def remove_refresh_token_cookie (resp : Response) : Response :=
  resp ++ [.del REFRESH_TOKEN_COOKIE_NAME]

/-- `AuthService._get_new_tokens`: decode the refresh token (401 on
failure), extract the subject (401 if falsy), re-resolve it in the user
store (`NotFoundException`, 404, if the user vanished), then issue a fresh
access/refresh pair. -/
def get_new_tokens (cfg : SecurityConfig) (users : List User)
    (refresh_token : Token) (now : Nat) : Except AppError (Token × Token) :=
  match decode_token cfg refresh_token now with
  | none => .error (.unauthorized "Invalid refresh token")
  | some result =>
    match payload_user_id result with
    | none => .error (.unauthorized "Invalid token payload")
    | some user_id =>
      match find_by_id users user_id with
      | none => .error (.notFound "User not found")
      | some user =>
          .ok (create_access_token cfg user.id now,
               create_refresh_token cfg user.id now)

/-- `AuthService.register`: conflict if the email exists; otherwise hash
the password, create the user (`newId` stands for the id the store
assigns), issue both tokens and attach the refresh cookie.  Returns the
outcome together with the response cookie state and the user store. -/
def register (cfg : SecurityConfig) (users : List User)
    (email password : String) (resp : Response) (salt : Nat) (newId : String)
    (now : Nat) : Except AppError Token × Response × List User :=
  match find_by_email users email with
  | some _ => (.error (.conflict "Email already registered"), resp, users)
  | none =>
    match hash_password password salt with
    | .error m => (.error (.valueError m), resp, users)
    | .ok hashed =>
      let user : User := ⟨newId, email, hashed⟩
      (.ok (create_access_token cfg user.id now),
       set_refresh_token_cookie cfg resp (create_refresh_token cfg user.id now),
       users ++ [user])

/-- `AuthService.login`: `NotFoundException` if the email is unknown,
`UnauthorizedError` if the password does not verify; on success issue both
tokens and attach the refresh cookie. -/
def login (cfg : SecurityConfig) (users : List User)
    (email password : String) (resp : Response) (now : Nat) :
    Except AppError Token × Response :=
  match find_by_email users email with
  | none => (.error (.notFound "User with this Email does not exist"), resp)
  | some user =>
    if verify_password password user.password then
      (.ok (create_access_token cfg user.id now),
       set_refresh_token_cookie cfg resp (create_refresh_token cfg user.id now))
    else (.error (.unauthorized "Incorrect password"), resp)

/-- `AuthService.logout`: clear the refresh cookie, never fails. -/
def logout (resp : Response) : Response :=
  remove_refresh_token_cookie resp

/-- `AuthService.login_access`: read the refresh cookie from the request;
if absent, clear the cookie and raise 401; otherwise rotate via
`_get_new_tokens` (the response is untouched when that raises) and attach
the new refresh cookie on success. -/
def login_access (cfg : SecurityConfig) (users : List User)
    (cookies : List (String × Token)) (resp : Response) (now : Nat) :
    Except AppError Token × Response :=
  match alistFind cookies REFRESH_TOKEN_COOKIE_NAME with
  | none =>
      (.error (.unauthorized "Refresh token not found"),
       remove_refresh_token_cookie resp)
  | some refresh_token =>
    match get_new_tokens cfg users refresh_token now with
    | .error e => (.error e, resp)
    | .ok (access_token, new_refresh) =>
        (.ok access_token, set_refresh_token_cookie cfg resp new_refresh)

/-- `get_current_user` dependency (src/app/dependencies/auth.py): decode
the bearer token, 401 on failure or on a falsy subject, else return the
subject id. -/
def get_current_user (cfg : SecurityConfig) (token : Token) (now : Nat) :
    Except AppError String :=
  match decode_token cfg token now with
  | none => .error (.unauthorized "Invalid or expired token")
  | some payload =>
    match payload_user_id payload with
    | none => .error (.unauthorized "Token missing user ID")
    | some user_id => .ok user_id

/-! ## Router layer (src/app/api/auth/auth_router.py)

Each endpoint wraps the service call in `try/except Exception`, so every
exception the service raises — including the typed HTTP exceptions — is
replaced by the endpoint's blanket `HTTPException`.  When an exception is
raised, FastAPI discards the injected response object, so no cookie
mutation reaches the client on a failing call. -/

/-- The client-visible error of an endpoint: HTTP status and detail. -/
structure HttpError where
  status : Nat
  detail : String
deriving DecidableEq

/-- POST /api/auth/register: any service exception becomes
500 "Failed to register user". -/
def register_route (cfg : SecurityConfig) (users : List User)
    (email password : String) (salt : Nat) (newId : String) (now : Nat) :
    Except HttpError Token × Response × List User :=
  match register cfg users email password [] salt newId now with
  | (.ok tok, resp', users') => (.ok tok, resp', users')
  | (.error _, _, users') =>
      (.error ⟨500, "Failed to register user"⟩, [], users')

/-- POST /api/auth/login: any service exception becomes
401 "Invalid credentials". -/
def login_route (cfg : SecurityConfig) (users : List User)
    (email password : String) (now : Nat) : Except HttpError Token × Response :=
  match login cfg users email password [] now with
  | (.ok tok, resp') => (.ok tok, resp')
  | (.error _, _) => (.error ⟨401, "Invalid credentials"⟩, [])

/-- POST /api/auth/login/access-token: any service exception becomes
401 "Invalid or expired token". -/
def login_access_token_route (cfg : SecurityConfig) (users : List User)
    (cookies : List (String × Token)) (now : Nat) :
    Except HttpError Token × Response :=
  match login_access cfg users cookies [] now with
  | (.ok tok, resp') => (.ok tok, resp')
  | (.error _, _) => (.error ⟨401, "Invalid or expired token"⟩, [])

/-! ## Concurrent execution model of `_check_rate_limit`

The middleware awaits each Redis command separately, so two in-flight
requests for the same key can interleave between the GET and the
SET/INCR.  A request is a two-phase program — read the counter, then act
on what was read — and a schedule decides whose phase runs next. -/

/-- Progress of one in-flight `_check_rate_limit` call: not yet started,
holding the value its GET returned, or finished with accept/reject. -/
inductive RlPhase
  | ready
  | readDone (v : Option Nat)
  | finished (accepted : Bool)
deriving DecidableEq

/-- One atomic Redis command on behalf of a request in the given phase:
`ready` performs the GET; `readDone` performs the SET (counter absent),
the INCR (below the limit) or the TTL read (rejection). -/
def rlStep (now limit window : Nat) (key : String) (st : Store) :
    RlPhase → Store × RlPhase
  | .ready => (st, .readDone (storeGet st now key))
  | .readDone none => (storeSet st now key 1 window, .finished true)
  | .readDone (some current) =>
      if current < limit then (storeIncr st now key, .finished true)
      else (st, .finished false)
  | .finished b => (st, .finished b)

/-- Run a schedule: each entry names the request whose next Redis command
executes.  Out-of-range entries are ignored. -/
def execSched (now limit window : Nat) (key : String) :
    List Nat → Store → List RlPhase → Store × List RlPhase
  | [], st, ps => (st, ps)
  | i :: rest, st, ps =>
    match ps[i]? with
    | none => execSched now limit window key rest st ps
    | some p =>
      let (st', p') := rlStep now limit window key st p
      execSched now limit window key rest st' (ps.set i p')

/-- Number of requests a batch of phases has accepted. -/
def acceptedCount (ps : List RlPhase) : Nat :=
  ps.countP fun p => decide (p = RlPhase.finished true)

/-- Serialized execution: N requests for one key at one instant, each
`_check_rate_limit` call running to completion before the next starts.
Returns the final store and how many requests were accepted. -/
def runSeq (now limit window : Nat) (key : String) : Nat → Store × Nat
  | 0 => ([], 0)
  | n + 1 =>
    let (st, acc) := runSeq now limit window key n
    match check_rate_limit st now limit window key with
    | (st', none) => (st', acc + 1)
    | (st', some _) => (st', acc)

/-! ## Concrete fixtures used by witnesses and counterexamples -/

/-- Example configuration: secret "s", HS256, 15-minute access TTL,
7-day (10080-minute) refresh TTL, DEBUG off. -/
def cfgEx : SecurityConfig := ⟨"s", "HS256", 15, 10080, false⟩

/-- Example user store with one registered user. -/
def usersEx : List User := [⟨"u1", "a@x.com", .wf ⟨0, "secret1"⟩⟩]

/-- A token signed with the wrong secret: its decoding fails. -/
def badTokenEx : Token := ⟨[("id", .str "u1")], "wrong-secret", "HS256"⟩

/-! ## Theorems -/

/-- C6: whenever the counter store is unreachable (every Redis command
raises), `dispatch` forwards the request unchanged — the limiter fails
open and a broken counter store never blocks a request. -/
theorem rate_limiter_fails_open (st : Store) (now limit window : Nat)
    (headers : List (String × String)) (clientHost : Option String)
    (path : String) :
    dispatch false st now limit window headers clientHost path
      = (.forward, st) := by
  simp [dispatch, check_rate_limit_exc]

/-- C7: `_set_refresh_token_cookie` appends exactly one set-cookie
operation named `refresh_token`, http-only, path "/", same-site lax,
max_age equal to the refresh TTL in seconds, and secure exactly when the
DEBUG flag is off. -/
theorem refresh_cookie_attributes (cfg : SecurityConfig) (resp : Response)
    (tok : Token) :
    set_refresh_token_cookie cfg resp tok
      = resp ++ [CookieOp.set REFRESH_TOKEN_COOKIE_NAME tok true (!cfg.debug)
          "lax" (cfg.refreshTokenExpireMinutes * 60) "/"] ∧
    REFRESH_TOKEN_COOKIE_NAME = "refresh_token" ∧
    ((!cfg.debug) = true ↔ cfg.debug = false) := by
  refine ⟨rfl, rfl, ?_⟩
  cases h : cfg.debug <;> simp

/-- C8: hashing a non-empty password and verifying it succeeds; verifying
against the hash of a different password fails; verification returns
false (never an error) on an empty password, on a malformed hash value,
and on an empty hash value. -/
theorem password_hash_verify (p : String) (s1 s2 : Nat) (hp : p ≠ "") :
    hash_password p s1 = .ok (.wf ⟨s1, p⟩) ∧
    verify_password p (.wf ⟨s1, p⟩) = true ∧
    hash_password (p ++ "x") s2 = .ok (.wf ⟨s2, p ++ "x"⟩) ∧
    verify_password p (.wf ⟨s2, p ++ "x"⟩) = false ∧
    verify_password "" (.wf ⟨s1, p⟩) = false ∧
    verify_password p (.malformed "not-a-bcrypt-hash") = false ∧
    verify_password p (.malformed "") = false := by
  have hne : p ≠ p ++ "x" := by
    intro h
    have h2 := congrArg String.length h
    simp [String.length_append] at h2
    exact absurd h2 (by decide)
  have hxe : p ++ "x" ≠ "" := by
    intro h
    have h2 := congrArg String.length h
    simp [String.length_append] at h2
    exact absurd h2.2 (by decide)
  refine ⟨?_, ?_, ?_, ?_, ?_, ?_, ?_⟩
  · simp [hash_password, hp]
  · simp [verify_password, bcrypt_checkpw, HashInput.isEmptyStr, hp]
  · simp [hash_password, hxe]
  · simp [verify_password, bcrypt_checkpw, HashInput.isEmptyStr, hp, hne]
  · simp [verify_password]
  · simp [verify_password, bcrypt_checkpw, HashInput.isEmptyStr, hp]
  · simp [verify_password, HashInput.isEmptyStr, hp]

/-- Concrete instance of `password_hash_verify` at password "secret1". -/
theorem password_hash_verify_witness :
    hash_password "secret1" 3 = .ok (.wf ⟨3, "secret1"⟩) ∧
    verify_password "secret1" (.wf ⟨3, "secret1"⟩) = true ∧
    hash_password ("secret1" ++ "x") 4 = .ok (.wf ⟨4, "secret1" ++ "x"⟩) ∧
    verify_password "secret1" (.wf ⟨4, "secret1" ++ "x"⟩) = false ∧
    verify_password "" (.wf ⟨3, "secret1"⟩) = false ∧
    verify_password "secret1" (.malformed "not-a-bcrypt-hash") = false ∧
    verify_password "secret1" (.malformed "") = false :=
  password_hash_verify "secret1" 3 4 (by decide)

/-- C5 counterexample: the issued tokens carry no `kind` claim and no
issued-at claim — the payload of both token kinds has only `id` and
`exp`. -/
theorem token_kind_claim_counterexample :
    alistFind (create_access_token cfgEx "u" 0).payload "kind" = none ∧
    alistFind (create_access_token cfgEx "u" 0).payload "issued_at" = none ∧
    alistFind (create_access_token cfgEx "u" 0).payload "iat" = none ∧
    alistFind (create_refresh_token cfgEx "u" 0).payload "kind" = none ∧
    alistFind (create_refresh_token cfgEx "u" 0).payload "iat" = none := by
  decide

/-- C5 amended: both token creators sign a payload that contains exactly
the subject under `id` and `exp = now + ttl` (ttl in seconds, access and
refresh TTLs respectively); decoding at issuance time returns that
payload, and it contains no `kind` and no issued-at claim. -/
theorem token_claims_amended (cfg : SecurityConfig) (uid : String) (now : Nat) :
    (create_access_token cfg uid now).payload
      = [("id", .str uid), ("exp", .num (now + cfg.accessTokenExpireMinutes * 60))] ∧
    (create_refresh_token cfg uid now).payload
      = [("id", .str uid), ("exp", .num (now + cfg.refreshTokenExpireMinutes * 60))] ∧
    (create_access_token cfg uid now).secret = cfg.jwtSecret ∧
    (create_access_token cfg uid now).alg = cfg.algorithm ∧
    (create_refresh_token cfg uid now).secret = cfg.jwtSecret ∧
    (create_refresh_token cfg uid now).alg = cfg.algorithm ∧
    decode_token cfg (create_access_token cfg uid now) now
      = some [("id", .str uid), ("exp", .num (now + cfg.accessTokenExpireMinutes * 60))] ∧
    decode_token cfg (create_refresh_token cfg uid now) now
      = some [("id", .str uid), ("exp", .num (now + cfg.refreshTokenExpireMinutes * 60))] ∧
    alistFind (create_access_token cfg uid now).payload "kind" = none ∧
    alistFind (create_refresh_token cfg uid now).payload "kind" = none := by
  refine ⟨rfl, rfl, rfl, rfl, rfl, rfl, ?_, ?_, ?_, ?_⟩ <;>
    simp [decode_token, create_access_token, create_refresh_token, create_token,
      alistFind]

/-- C2 counterexample: a refresh request whose cookie is present but fails
decoding (here: wrong signing secret) raises 401 but leaves the response
cookie state untouched — no cookie-clearing operation is emitted, contrary
to the claim. -/
theorem refresh_invalid_cookie_counterexample :
    login_access cfgEx [] [(REFRESH_TOKEN_COOKIE_NAME, badTokenEx)] [] 0
      = (.error (.unauthorized "Invalid refresh token"), ([] : Response)) ∧
    CookieOp.del REFRESH_TOKEN_COOKIE_NAME ∉
      (login_access cfgEx [] [(REFRESH_TOKEN_COOKIE_NAME, badTokenEx)] [] 0).2 := by
  decide

/-- C2 amended: when the refresh cookie is absent, `login_access` clears
the cookie and fails with 401; when the cookie is present but its token
fails decoding, it fails with 401 while leaving the response cookie state
unchanged (no clearing). -/
theorem refresh_cookie_failure_amended (cfg : SecurityConfig)
    (users : List User) (cookies : List (String × Token)) (resp : Response)
    (now : Nat) :
    (alistFind cookies REFRESH_TOKEN_COOKIE_NAME = none →
      login_access cfg users cookies resp now
        = (.error (.unauthorized "Refresh token not found"),
           resp ++ [.del REFRESH_TOKEN_COOKIE_NAME])) ∧
    (∀ tok, alistFind cookies REFRESH_TOKEN_COOKIE_NAME = some tok →
      decode_token cfg tok now = none →
      login_access cfg users cookies resp now
        = (.error (.unauthorized "Invalid refresh token"), resp)) := by
  constructor
  · intro h
    simp [login_access, h, remove_refresh_token_cookie]
  · intro tok h hdec
    simp [login_access, h, get_new_tokens, hdec]

/-- Concrete instance of `refresh_cookie_failure_amended`: no cookie at
all, and a cookie holding a wrongly-signed token. -/
theorem refresh_cookie_failure_amended_witness :
    login_access cfgEx [] [] [] 0
      = (.error (.unauthorized "Refresh token not found"),
         [CookieOp.del REFRESH_TOKEN_COOKIE_NAME]) ∧
    login_access cfgEx [] [(REFRESH_TOKEN_COOKIE_NAME, badTokenEx)] [] 0
      = (.error (.unauthorized "Invalid refresh token"), ([] : Response)) :=
  ⟨(refresh_cookie_failure_amended cfgEx [] [] [] 0).1 (by decide),
   (refresh_cookie_failure_amended cfgEx []
      [(REFRESH_TOKEN_COOKIE_NAME, badTokenEx)] [] 0).2 badTokenEx
      (by decide) (by decide)⟩

/-- C4: evaluation at the failing input.  At the client boundary the
router's blanket `except Exception` turns every login and refresh failure
into 401 — including the vanished-user case, which the service itself
raises as a 404 `NotFoundException` despite its docstring promising
`UnauthorizedError` — but it also turns the duplicate-registration
`ConflictError` (status 409 by construction) into a 500
"Failed to register user", so duplicate registration is NOT surfaced as
409. -/
theorem auth_status_codes_eval :
    (register_route cfgEx usersEx "a@x.com" "newpass" 1 "u2" 0).1
      = .error ⟨500, "Failed to register user"⟩ ∧
    (500 : Nat) ≠ 409 ∧
    (login_route cfgEx usersEx "a@x.com" "wrong" 0).1
      = .error ⟨401, "Invalid credentials"⟩ ∧
    (login_access_token_route cfgEx []
        [(REFRESH_TOKEN_COOKIE_NAME, create_refresh_token cfgEx "u1" 0)] 5).1
      = .error ⟨401, "Invalid or expired token"⟩ ∧
    (login_access cfgEx []
        [(REFRESH_TOKEN_COOKIE_NAME, create_refresh_token cfgEx "u1" 0)] [] 5).1
      = .error (.notFound "User not found") ∧
    AppError.statusCode (.notFound "User not found") = 404 ∧
    AppError.statusCode (.conflict "Email already registered") = 409 := by
  decide

/-- C9: tokens carry no kind discriminator, so a validly signed, unexpired
access token supplied as the refresh cookie is accepted by the refresh
operation and yields a fresh token pair, and a refresh token presented as
a bearer token is accepted by the protected-route guard. -/
theorem tokens_interchangeable (cfg : SecurityConfig) (users : List User)
    (u : User) (resp : Response) (t0 now : Nat)
    (hfind : find_by_id users u.id = some u)
    (hid : u.id ≠ "")
    (hacc : now ≤ t0 + cfg.accessTokenExpireMinutes * 60)
    (href : now ≤ t0 + cfg.refreshTokenExpireMinutes * 60) :
    login_access cfg users
        [(REFRESH_TOKEN_COOKIE_NAME, create_access_token cfg u.id t0)] resp now
      = (.ok (create_access_token cfg u.id now),
         set_refresh_token_cookie cfg resp (create_refresh_token cfg u.id now)) ∧
    get_current_user cfg (create_refresh_token cfg u.id t0) now = .ok u.id := by
  constructor
  · simp [login_access, alistFind, get_new_tokens, decode_token,
      create_access_token, create_token, payload_user_id, hid, hfind,
      Nat.not_lt.mpr hacc]
  · simp [get_current_user, decode_token, create_refresh_token, create_token,
      alistFind, payload_user_id, hid, Nat.not_lt.mpr href]

/-- Concrete instance of `tokens_interchangeable` for the example user. -/
theorem tokens_interchangeable_witness :
    login_access cfgEx usersEx
        [(REFRESH_TOKEN_COOKIE_NAME, create_access_token cfgEx "u1" 0)] [] 1
      = (.ok (create_access_token cfgEx "u1" 1),
         set_refresh_token_cookie cfgEx [] (create_refresh_token cfgEx "u1" 1)) ∧
    get_current_user cfgEx (create_refresh_token cfgEx "u1" 0) 1 = .ok "u1" :=
  tokens_interchangeable cfgEx usersEx ⟨"u1", "a@x.com", .wf ⟨0, "secret1"⟩⟩
    [] 0 1 (by decide) (by decide) (by decide) (by decide)

/-- C10: whenever `register` fails (duplicate email) or `login` fails
(unknown email or wrong password), the response cookie state and the user
store are returned unchanged — no cookie is attached on a failing call. -/
theorem failed_auth_leaves_response_unchanged (cfg : SecurityConfig)
    (users : List User) (email password : String) (resp : Response)
    (salt : Nat) (newId : String) (now : Nat) :
    (isErr (register cfg users email password resp salt newId now).1 = true →
      (register cfg users email password resp salt newId now).2
        = (resp, users)) ∧
    (isErr (login cfg users email password resp now).1 = true →
      (login cfg users email password resp now).2 = resp) := by
  constructor
  · intro h
    rcases hfe : find_by_email users email with _ | u
    · rcases hhp : hash_password password salt with m | hashed
      · simp [register, hfe, hhp]
      · simp [register, hfe, hhp, isErr] at h
    · simp [register, hfe]
  · intro h
    rcases hfe : find_by_email users email with _ | u
    · simp [login, hfe]
    · rcases hvp : verify_password password u.password
      · simp [login, hfe, hvp]
      · simp [login, hfe, hvp, isErr] at h

/-- Concrete instance of `failed_auth_leaves_response_unchanged`: duplicate
registration and a wrong-password login against the example store. -/
theorem failed_auth_leaves_response_unchanged_witness :
    (register cfgEx usersEx "a@x.com" "wrong" [] 1 "u2" 0).2 = ([], usersEx) ∧
    (login cfgEx usersEx "a@x.com" "wrong" [] 0).2 = [] :=
  ⟨(failed_auth_leaves_response_unchanged cfgEx usersEx "a@x.com" "wrong" []
      1 "u2" 0).1 (by decide),
   (failed_auth_leaves_response_unchanged cfgEx usersEx "a@x.com" "wrong" []
      1 "u2" 0).2 (by decide)⟩

/-- Characterization of serialized execution: after n requests at one
instant the store holds the key at min n limit with the deadline set by
the first request, and min n limit of them were accepted. -/
theorem runSeq_spec (now limit window : Nat) (key : String)
    (hL : 0 < limit) (hw : 0 < window) :
    ∀ n : Nat, runSeq now limit window key n
      = (if n = 0 then ([] : Store)
         else [(key, min n limit, some (now + window))],
         min n limit) := by
  intro n
  induction n with
  | zero => simp [runSeq]
  | succ n ih =>
    rw [runSeq, ih]
    rcases Nat.eq_zero_or_pos n with hn | hn
    · subst hn
      simp [check_rate_limit, storeGet, storeGetEntry, storeSet, alistFind,
        alistRemove, Nat.min_eq_left hL]
    · have hn' : ¬ n = 0 := Nat.pos_iff_ne_zero.mp hn
      simp only [hn', if_neg, ite_false]
      by_cases hlt : n < limit
      · have h1 : min n limit = n := Nat.min_eq_left (Nat.le_of_lt hlt)
        simp [check_rate_limit, storeGet, storeGetEntry, storeIncr, alistFind,
          alistRemove, h1, hlt, Nat.lt_add_of_pos_right hw]
        omega
      · have h1 : min n limit = limit := Nat.min_eq_right (Nat.le_of_not_lt hlt)
        simp [check_rate_limit, storeGet, storeGetEntry, storeTtl, alistFind,
          alistRemove, h1, hlt, Nat.lt_add_of_pos_right hw]
        omega

/-- C1 counterexample: the check-and-count is NOT atomic.  Three
simultaneous requests for one key with limit 2 in one window: request 0
runs to completion (creates count 1), then requests 1 and 2 both perform
their GET before either performs its INCR — both read 1 < 2 and both are
accepted, so all 3 of the 3 > 2 requests are accepted instead of exactly
2. -/
theorem rate_limit_race_counterexample :
    (execSched 0 2 60 "k" [0, 0, 1, 2, 1, 2] []
        [.ready, .ready, .ready]).2
      = [.finished true, .finished true, .finished true] ∧
    acceptedCount (execSched 0 2 60 "k" [0, 0, 1, 2, 1, 2] []
        [.ready, .ready, .ready]).2 = 3 ∧
    (3 : Nat) ≠ 2 := by
  decide

/-- C1 amended: the counter update is a non-atomic GET followed by a
SET/INCR, so interleaved requests can over-admit at the count = L-1
boundary; only when the N simultaneous requests are serialized (each
`_check_rate_limit` call completing before the next starts) are exactly
min N L of them accepted. -/
theorem rate_limit_serialized_amended (now limit window : Nat) (key : String)
    (n : Nat) (hL : 0 < limit) (hw : 0 < window) :
    (runSeq now limit window key n).2 = min n limit := by
  rw [runSeq_spec now limit window key hL hw n]

/-- Concrete instance of `rate_limit_serialized_amended`: 5 serialized
requests against limit 2 yield exactly 2 acceptances. -/
theorem rate_limit_serialized_amended_witness :
    (0 : Nat) < 2 ∧ (0 : Nat) < 60 ∧ (runSeq 0 2 60 "k" 5).2 = min 5 2 :=
  ⟨by decide, by decide,
   rate_limit_serialized_amended 0 2 60 "k" 5 (by decide) (by decide)⟩

/-- C3: with limit 3 and window 60 for one client and route, processed
sequentially: the first request creates the counter with count 1 and
deadline t1+60 and is forwarded, the second and third increment and are
forwarded, the fourth is rejected with a positive retry_after of at most
60 seconds, and a request at or after the deadline is forwarded again
under a fresh counter. -/
theorem fixed_window_l3_w60 (t1 t2 t3 t4 t5 : Nat)
    (h12 : t1 ≤ t2) (h23 : t2 ≤ t3) (h34 : t3 ≤ t4)
    (h4 : t4 < t1 + 60) (h5 : t1 + 60 ≤ t5) :
    dispatch true [] t1 3 60 [] (some "1.2.3.4") "/p"
      = (.forward, [(create_rate_limit_key "1.2.3.4" "/p", 1, some (t1 + 60))]) ∧
    dispatch true [(create_rate_limit_key "1.2.3.4" "/p", 1, some (t1 + 60))]
        t2 3 60 [] (some "1.2.3.4") "/p"
      = (.forward, [(create_rate_limit_key "1.2.3.4" "/p", 2, some (t1 + 60))]) ∧
    dispatch true [(create_rate_limit_key "1.2.3.4" "/p", 2, some (t1 + 60))]
        t3 3 60 [] (some "1.2.3.4") "/p"
      = (.forward, [(create_rate_limit_key "1.2.3.4" "/p", 3, some (t1 + 60))]) ∧
    (∃ r : Int,
      dispatch true [(create_rate_limit_key "1.2.3.4" "/p", 3, some (t1 + 60))]
          t4 3 60 [] (some "1.2.3.4") "/p"
        = (.reject r,
           [(create_rate_limit_key "1.2.3.4" "/p", 3, some (t1 + 60))]) ∧
      0 < r ∧ r ≤ 60) ∧
    dispatch true [(create_rate_limit_key "1.2.3.4" "/p", 3, some (t1 + 60))]
        t5 3 60 [] (some "1.2.3.4") "/p"
      = (.forward, [(create_rate_limit_key "1.2.3.4" "/p", 1, some (t5 + 60))]) := by
  have ht2 : t2 < t1 + 60 := by omega
  have ht3 : t3 < t1 + 60 := by omega
  have ht5 : ¬ t5 < t1 + 60 := by omega
  refine ⟨?_, ?_, ?_, ?_, ?_⟩
  · simp [dispatch, get_client_ip, headerOr, alistFind, check_rate_limit_exc,
      check_rate_limit, storeGet, storeGetEntry, storeSet, alistRemove]
  · simp [dispatch, get_client_ip, headerOr, alistFind, check_rate_limit_exc,
      check_rate_limit, storeGet, storeGetEntry, storeIncr, alistRemove, ht2]
  · simp [dispatch, get_client_ip, headerOr, alistFind, check_rate_limit_exc,
      check_rate_limit, storeGet, storeGetEntry, storeIncr, alistRemove, ht3]
  · refine ⟨(t1 + 60 : Int) - t4, ?_, by omega, by omega⟩
    simp [dispatch, get_client_ip, headerOr, alistFind, check_rate_limit_exc,
      check_rate_limit, storeGet, storeGetEntry, storeTtl, alistRemove, h4]
  · simp [dispatch, get_client_ip, headerOr, alistFind, check_rate_limit_exc,
      check_rate_limit, storeGet, storeGetEntry, storeSet, alistRemove, ht5]

/-- Concrete instance of `fixed_window_l3_w60` at times 0, 1, 2, 3, 60. -/
theorem fixed_window_l3_w60_witness :
    dispatch true [] 0 3 60 [] (some "1.2.3.4") "/p"
      = (.forward, [(create_rate_limit_key "1.2.3.4" "/p", 1, some 60)]) ∧
    dispatch true [(create_rate_limit_key "1.2.3.4" "/p", 1, some 60)]
        1 3 60 [] (some "1.2.3.4") "/p"
      = (.forward, [(create_rate_limit_key "1.2.3.4" "/p", 2, some 60)]) ∧
    dispatch true [(create_rate_limit_key "1.2.3.4" "/p", 2, some 60)]
        2 3 60 [] (some "1.2.3.4") "/p"
      = (.forward, [(create_rate_limit_key "1.2.3.4" "/p", 3, some 60)]) ∧
    (∃ r : Int,
      dispatch true [(create_rate_limit_key "1.2.3.4" "/p", 3, some 60)]
          3 3 60 [] (some "1.2.3.4") "/p"
        = (.reject r, [(create_rate_limit_key "1.2.3.4" "/p", 3, some 60)]) ∧
      0 < r ∧ r ≤ 60) ∧
    dispatch true [(create_rate_limit_key "1.2.3.4" "/p", 3, some 60)]
        60 3 60 [] (some "1.2.3.4") "/p"
      = (.forward, [(create_rate_limit_key "1.2.3.4" "/p", 1, some 120)]) :=
  fixed_window_l3_w60 0 1 2 3 60 (by decide) (by decide) (by decide)
    (by decide) (by decide)

end FastApiBackend
